import Mathlib

/-!
Verification development for the asm-ics repository (four Python scrapers that
turn venue web pages into iCalendar feeds).  The definitions below are a
shallow embedding of the code in `asm_to_ics.py`, `asm_venue_to_ics.py`,
`tm_venue_to_ics.py` and `ticketmaster_oncenter_to_ics.py`:

* Python `datetime` values are modelled by `DateTime` (naive wall time as
  days-since-epoch plus seconds-in-day, microseconds, and an optional tzinfo
  tag).  `America/New_York` is modelled by `Tz.site` with the post-2007 US
  Eastern DST rule; fixed `timezone(timedelta(...))` offsets by `Tz.off`.
* `datetime.fromisoformat` is modelled by `pyFromIso` following the
  CPython ≤ 3.10 grammar `YYYY-MM-DD[*HH[:MM[:SS[.fff[fff]]]][±HH:MM[:SS]]]`
  (which is also a sub-grammar of the 3.11+ parser); in particular a bare
  `YYYY-MM-DD` parses to midnight, exactly as in Python.
* Regex/HTML scanning (BeautifulSoup, `re`) is treated as an external
  collaborator, as the spec's scope section prescribes: a fetched page enters
  the model as a `Doc`, holding the parsed JSON-LD blocks and the capture
  groups of each of the five scanning regexes.
* Aware-datetime comparison follows CPython: identical tzinfo compares naive
  wall times, otherwise instants (via `utcoffset`) are compared.
-/

namespace ICS

/-- Python `str.strip()`: drop leading and trailing whitespace. -/
def pyStrip (s : String) : String :=
  String.mk (((s.toList.dropWhile Char.isWhitespace).reverse.dropWhile Char.isWhitespace).reverse)

/-- Python `str.replace(pat, rep)` for a single-character pattern, on char lists. -/
def replaceChar (c : Char) (r : List Char) : List Char → List Char
  | [] => []
  | x :: xs => if x = c then r ++ replaceChar c r xs else x :: replaceChar c r xs

/-- `listPrefix a b` is true when `a` is a prefix of `b`. -/
def listPrefix : List Char → List Char → Bool
  | [], _ => true
  | _ :: _, [] => false
  | x :: xs, y :: ys => x = y && listPrefix xs ys

/-- Substring containment on char lists (Python `needle in hay`). -/
def containsSub (needle : List Char) : List Char → Bool
  | [] => needle.isEmpty
  | y :: t => listPrefix needle (y :: t) || containsSub needle t

/-- Python `needle in hay` for strings. -/
def strContains (needle hay : String) : Bool := containsSub needle.toList hay.toList

/-- Python `str.lower()` (ASCII case folding suffices here). -/
def pyLower (s : String) : String := String.mk (s.toList.map Char.toLower)

/-- Python `s.startswith("http")`. -/
def startsWithHttp (s : String) : Bool := listPrefix ("http").toList s.toList

/-- Gregorian leap-year test. -/
def isLeap (y : Int) : Bool := y % 4 == 0 && (y % 100 != 0 || y % 400 == 0)

/-- Days in a Gregorian month. -/
def daysInMonth (y : Int) (m : Nat) : Nat :=
  if m = 2 then (if isLeap y then 29 else 28)
  else if m = 4 ∨ m = 6 ∨ m = 9 ∨ m = 11 then 30 else 31

/-- Days since 1970-01-01 of a Gregorian date (Hinnant's civil-from-days inverse). -/
def daysFromCivil (y : Int) (m d : Nat) : Int :=
  let yi : Int := y - (if m ≤ 2 then 1 else 0)
  let era : Int := yi.ediv 400
  let yoe : Int := yi - era * 400
  let mp : Int := ((m : Int) + 9) % 12
  let doy : Int := (153 * mp + 2).ediv 5 + (d : Int) - 1
  let doe : Int := yoe * 365 + yoe.ediv 4 - yoe.ediv 100 + doy
  era * 146097 + doe - 719468

/-- Gregorian date (year, month, day) of a days-since-1970 count. -/
def civilFromDays (z0 : Int) : Int × Nat × Nat :=
  let z := z0 + 719468
  let era := z.ediv 146097
  let doe := z - era * 146097
  let yoe := (doe - doe.ediv 1460 + doe.ediv 36524 - doe.ediv 146096).ediv 365
  let y := yoe + era * 400
  let doy := doe - (365 * yoe + yoe.ediv 4 - yoe.ediv 100)
  let mp := (5 * doy + 2).ediv 153
  let d := doy - (153 * mp + 2).ediv 5 + 1
  let m := mp + (if mp < 10 then 3 else -9)
  ((if m ≤ 2 then y + 1 else y), m.toNat, d.toNat)

/-- Day of week of a days-since-1970 count, `0` = Sunday (1970-01-01 was a Thursday). -/
def weekday (days : Int) : Int := ((days % 7) + 4) % 7

/-- First Sunday on or after the given day count. -/
def firstSundayOnOrAfterD (d : Int) : Int := d + (7 - weekday d) % 7

/-- Day count of the second Sunday of March (US DST start since 2007). -/
def dstStartDay (y : Int) : Int := firstSundayOnOrAfterD (daysFromCivil y 3 8)

/-- Day count of the first Sunday of November (US DST end since 2007). -/
def dstEndDay (y : Int) : Int := firstSundayOnOrAfterD (daysFromCivil y 11 1)

/-- A Python `tzinfo` value as used by the scripts: `site` is
`dateutil.tz.gettz("America/New_York")` (`SITE_TZ`), `off s` is a fixed UTC
offset of `s` seconds as produced by `fromisoformat` for explicit offsets. -/
inductive Tz where
  | site : Tz
  | off : Int → Tz
deriving DecidableEq, Repr

/-- Model of a Python `datetime`: naive wall time stored as days since
1970-01-01 (`date`) plus seconds within the day (`sec`), microseconds, and the
attached tzinfo (`none` = naive). -/
structure DateTime where
  date : Int
  sec : Nat
  micro : Nat
  tz : Option Tz
deriving DecidableEq, Repr

/-- `datetime(y, m, d, h, mi, s, us, tzinfo)` (fields assumed in range, as the
Python constructor validates them at each call site that can reach it). -/
def mkDateTime (y : Int) (m d h mi s us : Nat) (tz : Option Tz) : DateTime :=
  ⟨daysFromCivil y m d, 3600 * h + 60 * mi + s, us, tz⟩

def DateTime.year (dt : DateTime) : Int := (civilFromDays dt.date).1
def DateTime.month (dt : DateTime) : Nat := (civilFromDays dt.date).2.1
def DateTime.day (dt : DateTime) : Nat := (civilFromDays dt.date).2.2
def DateTime.hour (dt : DateTime) : Nat := dt.sec / 3600
def DateTime.minute (dt : DateTime) : Nat := dt.sec / 60 % 60
def DateTime.second (dt : DateTime) : Nat := dt.sec % 60

/-- US Eastern DST test on wall time (post-2007 rule: from the second Sunday of
March 02:00 to the first Sunday of November 02:00). -/
def inDST (dt : DateTime) : Bool :=
  let y := dt.year
  let st := dstStartDay y
  let en := dstEndDay y
  (decide (st < dt.date) || (decide (dt.date = st) && decide (7200 ≤ dt.sec))) &&
  (decide (dt.date < en) || (decide (dt.date = en) && decide (dt.sec < 7200)))

/-- `utcoffset` in seconds (`none` never queried for naive values in the flows
we model; returning 0 there is inert). -/
def utcOffsetSec (dt : DateTime) : Int :=
  match dt.tz with
  | some (Tz.off s) => s
  | some Tz.site => if inDST dt then -14400 else -18000
  | none => 0

/-- Naive wall time in seconds since epoch. -/
def naiveSec (dt : DateTime) : Int := 86400 * dt.date + (dt.sec : Int)

/-- Naive wall time in microseconds since epoch. -/
def naiveUsec (dt : DateTime) : Int := 1000000 * naiveSec dt + (dt.micro : Int)

/-- Absolute instant in seconds (wall time minus utcoffset). -/
def instantSec (dt : DateTime) : Int := naiveSec dt - utcOffsetSec dt

/-- Absolute instant in microseconds. -/
def instantUsec (dt : DateTime) : Int := naiveUsec dt - 1000000 * utcOffsetSec dt

/-- CPython's `datetime.__le__`: identical tzinfo compares the naive wall
times, otherwise instants are compared. -/
def pyLe (a b : DateTime) : Bool :=
  if a.tz = b.tz then decide (naiveUsec a ≤ naiveUsec b)
  else decide (instantUsec a ≤ instantUsec b)

/-- Rebuild a `DateTime` from naive epoch seconds. -/
def fromNaiveSec (x : Int) (micro : Nat) (tz : Option Tz) : DateTime :=
  ⟨x / 86400, (x % 86400).toNat, micro, tz⟩

/-- Python `dt + timedelta(seconds = delta)`: wall-clock arithmetic keeping
the tzinfo (this is exactly what `datetime.__add__` does). -/
def wallAdd (dt : DateTime) (delta : Int) : DateTime :=
  fromNaiveSec (naiveSec dt + delta) dt.micro dt.tz

/-- Site wall seconds of a UTC instant (inverse DST lookup on the UTC
timeline: transitions at 07:00 / 06:00 UTC of the rule days). -/
def siteWallFromInstant (t : Int) : Int :=
  let y := (civilFromDays ((t - 18000).ediv 86400)).1
  let startT := 86400 * dstStartDay y + 25200
  let endT := 86400 * dstEndDay y + 21600
  if startT ≤ t ∧ t < endT then t - 14400 else t - 18000

/-- Python `dt.astimezone(SITE_TZ)`. -/
def astimezoneSite (dt : DateTime) : DateTime :=
  fromNaiveSec (siteWallFromInstant (instantSec dt)) dt.micro (some Tz.site)

/-- Numeric value of a decimal digit character. -/
def dval (c : Char) : Nat := c.toNat - 48

/-- Value of a list of decimal digit characters. -/
def natOfDigits (l : List Char) : Nat := l.foldl (fun a c => 10 * a + dval c) 0

/-- ASCII digit character for `n % 10`. -/
def digitChar (n : Nat) : Char := Char.ofNat (48 + n % 10)

def pad2 (n : Nat) : String := String.mk [digitChar (n / 10), digitChar n]

def pad4 (n : Nat) : String :=
  String.mk [digitChar (n / 1000), digitChar (n / 100), digitChar (n / 10), digitChar n]

def pad6 (n : Nat) : String :=
  String.mk [digitChar (n / 100000), digitChar (n / 10000), digitChar (n / 1000),
    digitChar (n / 100), digitChar (n / 10), digitChar n]

/-- UTC-offset suffix as `datetime.isoformat` prints it (`±HH:MM[:SS]`). -/
def offsetSuffix (o : Int) : String :=
  let a := o.natAbs
  (if o < 0 then "-" else "+") ++ pad2 (a / 3600) ++ ":" ++ pad2 (a / 60 % 60) ++
    (if a % 60 ≠ 0 then ":" ++ pad2 (a % 60) else "")

/-- Python `datetime.isoformat()` (used by the collectors as the dedup key). -/
def DateTime.isoformat (dt : DateTime) : String :=
  pad4 dt.year.toNat ++ "-" ++ pad2 dt.month ++ "-" ++ pad2 dt.day ++ "T" ++
    pad2 dt.hour ++ ":" ++ pad2 dt.minute ++ ":" ++ pad2 dt.second ++
    (if dt.micro ≠ 0 then "." ++ pad6 dt.micro else "") ++
    (match dt.tz with
     | none => ""
     | some _ => offsetSuffix (utcOffsetSec dt))

/-- `utcstamp` / the `DTSTART` format: `d.astimezone(timezone.utc).strftime("%Y%m%dT%H%M%SZ")`. -/
def utcstamp (dt : DateTime) : String :=
  let u := fromNaiveSec (instantSec dt) dt.micro (some (Tz.off 0))
  pad4 u.year.toNat ++ pad2 u.month ++ pad2 u.day ++ "T" ++ pad2 u.hour ++ pad2 u.minute ++
    pad2 u.second ++ "Z"

/-- Parse an offset tail `HH:MM[:SS]` (after the sign), returning seconds and
the remaining characters. -/
def parseOffTail : List Char → Option (Int × List Char)
  | h1 :: h2 :: ':' :: m1 :: m2 :: rest =>
    if h1.isDigit && h2.isDigit && m1.isDigit && m2.isDigit then
      let hh := 10 * dval h1 + dval h2
      let mm := 10 * dval m1 + dval m2
      if hh ≤ 23 ∧ mm ≤ 59 then
        match rest with
        | ':' :: s1 :: s2 :: rest2 =>
          if s1.isDigit && s2.isDigit then
            let ss := 10 * dval s1 + dval s2
            if ss ≤ 59 then some (((3600 * hh + 60 * mm + ss : Nat) : Int), rest2) else none
          else none
        | _ => some (((3600 * hh + 60 * mm : Nat) : Int), rest)
      else none
    else none
  | _ => none

/-- Parse the timezone part of an ISO string: empty, or a signed offset that
must consume the rest of the input. -/
def parseTzPart : List Char → Option (Option Int)
  | [] => some none
  | '+' :: rest =>
    (match parseOffTail rest with
     | some (o, []) => some (some o)
     | _ => none)
  | '-' :: rest =>
    (match parseOffTail rest with
     | some (o, []) => some (some (-o))
     | _ => none)
  | _ => none

/-- Parse a fractional-seconds run: exactly 3 or 6 digits (CPython ≤ 3.10). -/
def parseFracRun (l : List Char) : Option (Nat × List Char) :=
  let run := l.takeWhile Char.isDigit
  let rest := l.dropWhile Char.isDigit
  if run.length = 3 then some (1000 * natOfDigits run, rest)
  else if run.length = 6 then some (natOfDigits run, rest)
  else none

/-- Parse `[:SS[.ffffff]][±HH:MM[:SS]]` after the minutes. -/
def parseSecFrac : List Char → Option (Nat × Nat × Option Int)
  | ':' :: s1 :: s2 :: rest =>
    if s1.isDigit && s2.isDigit then
      let ss := 10 * dval s1 + dval s2
      if ss ≤ 59 then
        match rest with
        | '.' :: fr => (parseFracRun fr).bind (fun p => (parseTzPart p.2).map (fun o => (ss, p.1, o)))
        | other => (parseTzPart other).map (fun o => (ss, 0, o))
      else none
    else none
  | other => (parseTzPart other).map (fun o => (0, 0, o))

/-- Parse the time part `HH[:MM[:SS[.ffffff]]][±HH:MM[:SS]]`. -/
def parseTimeList : List Char → Option (Nat × Nat × Nat × Nat × Option Int)
  | h1 :: h2 :: rest =>
    if h1.isDigit && h2.isDigit then
      let hh := 10 * dval h1 + dval h2
      if hh ≤ 23 then
        match rest with
        | ':' :: m1 :: m2 :: rest2 =>
          if m1.isDigit && m2.isDigit then
            let mm := 10 * dval m1 + dval m2
            if mm ≤ 59 then (parseSecFrac rest2).map (fun p => (hh, mm, p.1, p.2.1, p.2.2))
            else none
          else none
        | other => (parseTzPart other).map (fun o => (hh, 0, 0, 0, o))
      else none
    else none
  | _ => none

/-- Model of `datetime.fromisoformat` (CPython ≤ 3.10 grammar):
`YYYY-MM-DD` optionally followed by any separator character and a time part.
A bare date parses to midnight, naive. Explicit offsets become `Tz.off`. -/
def pyFromIsoList : List Char → Option DateTime
  | y1 :: y2 :: y3 :: y4 :: '-' :: m1 :: m2 :: '-' :: d1 :: d2 :: rest =>
    if y1.isDigit && y2.isDigit && y3.isDigit && y4.isDigit &&
       m1.isDigit && m2.isDigit && d1.isDigit && d2.isDigit then
      let y := natOfDigits [y1, y2, y3, y4]
      let mo := 10 * dval m1 + dval m2
      let dy := 10 * dval d1 + dval d2
      if 1 ≤ y ∧ 1 ≤ mo ∧ mo ≤ 12 ∧ 1 ≤ dy ∧ dy ≤ daysInMonth (y : Int) mo then
        match rest with
        | [] => some (mkDateTime (y : Int) mo dy 0 0 0 0 none)
        | _sep :: t =>
          (parseTimeList t).map (fun p =>
            mkDateTime (y : Int) mo dy p.1 p.2.1 p.2.2.1 p.2.2.2.1 (p.2.2.2.2.map Tz.off))
      else none
    else none
  | _ => none

def pyFromIso (s : String) : Option DateTime := pyFromIsoList s.toList

/-- `re.fullmatch(r"\d{4}-\d{2}-\d{2}", s)`. -/
def isBareDateL : List Char → Bool
  | [a, b, c, d, '-', e, f, '-', g, h] =>
    a.isDigit && b.isDigit && c.isDigit && d.isDigit &&
      e.isDigit && f.isDigit && g.isDigit && h.isDigit
  | _ => false

/-- The string preprocessing of `parse_iso_like` (asm_to_ics.py:118-124 /
asm_venue_to_ics.py:146-154): strip, space→`T`, append `T19:00:00` to a bare
date, then replace `Z` with `+00:00`. -/
def asmPre (iso : String) : List Char :=
  let s := replaceChar ' ' ['T'] (pyStrip iso).toList
  replaceChar 'Z' ("+00:00").toList (if isBareDateL s then s ++ ("T19:00:00").toList else s)

/-- `parse_iso_like` (asm_to_ics.py:118-128, identical in asm_venue_to_ics.py):
the Normalizer of the two ASM scripts.  A naive parse result is stamped with
`SITE_TZ`. -/
def parse_iso_like (iso : String) : Option DateTime :=
  if iso = "" then none
  else
    match pyFromIsoList (asmPre iso) with
    | none => none
    | some dt => some (if dt.tz = none then { dt with tz := some Tz.site } else dt)

/-- `s.endswith("Z")`. -/
def endsWithZ (l : List Char) : Bool := l.getLast? == some 'Z'

/-- The preprocessing `s.strip().replace(" ", "T")` of `parse_iso_guess_local`. -/
def tmPre (s0 : String) : List Char := replaceChar ' ' ['T'] (pyStrip s0).toList

/-- `parse_iso_guess_local` (tm_venue_to_ics.py:48-63, identical in
ticketmaster_oncenter_to_ics.py:56-69): try `fromisoformat` first (a `Z`
suffix is rewritten to `+00:00` and the result converted to site time); only
when that raises does the bare-date branch run.  Note the bare-date branch is
reachable only for calendar-invalid dates (a valid `YYYY-MM-DD` already
parses to midnight), where the Python `datetime(...)` constructor would in
fact raise; we model that dead branch as written. -/
def parse_iso_guess_local (s0 : String) : Option DateTime :=
  if s0 = "" then none
  else if endsWithZ (tmPre s0) then
    (pyFromIsoList (replaceChar 'Z' ("+00:00").toList (tmPre s0))).map astimezoneSite
  else
    match pyFromIsoList (tmPre s0) with
    | some dt => some (if dt.tz = none then { dt with tz := some Tz.site } else dt)
    | none =>
      if isBareDateL (tmPre s0) then
        some (mkDateTime ((natOfDigits ((tmPre s0).take 4) : Nat) : Int)
          (natOfDigits (((tmPre s0).drop 5).take 2)) (natOfDigits (((tmPre s0).drop 8).take 2))
          19 0 0 0 (some Tz.site))
      else none

/-- A parsed JSON value, as produced by `json.loads` on a JSON-LD block. -/
inductive Json where
  | null : Json
  | bool : Bool → Json
  | num : Int → Json
  | str : String → Json
  | arr : List Json → Json
  | obj : List (String × Json) → Json

mutual
/-- `walk` (same generator in all four scripts): yield every dict in the
graph, depth-first, a dict before its values, list elements in order. -/
def walk : Json → List Json
  | Json.obj fs => Json.obj fs :: walkFields fs
  | Json.arr xs => walkList xs
  | _ => []
def walkList : List Json → List Json
  | [] => []
  | x :: xs => walk x ++ walkList xs
def walkFields : List (String × Json) → List Json
  | [] => []
  | f :: fs => walk f.2 ++ walkFields fs
end

/-- Python `dict.get(k)` on a JSON object (`None` when absent or not a dict). -/
def jget : Json → String → Option Json
  | Json.obj fs, k => (fs.find? (fun p => p.1 == k)).map (fun p => p.2)
  | _, _ => none

/-- `dict.get(k)` with Python's `None` made explicit as `Json.null`. -/
def jgetD (n : Json) (k : String) : Json := (jget n k).getD Json.null

/-- Python truthiness of a parsed-JSON value. -/
def truthy : Json → Bool
  | Json.null => false
  | Json.bool b => b
  | Json.num n => decide (n ≠ 0)
  | Json.str s => decide (s ≠ "")
  | Json.arr xs => !xs.isEmpty
  | Json.obj fs => !fs.isEmpty

/-- Python `a or b or ...` over values: first truthy value, else the last. -/
def orChain : List Json → Json
  | [] => Json.null
  | [x] => x
  | x :: y :: xs => if truthy x then x else orChain (y :: xs)

/-- A single-quote character (Python repr quoting). -/
def sq : String := String.mk [Char.ofNat 39]

mutual
/-- Python `str()` / `repr()` of a parsed-JSON value (repr string escaping
inside nested strings is not reproduced; no claim depends on it). -/
def pyRepr : Json → String
  | Json.null => "None"
  | Json.bool true => "True"
  | Json.bool false => "False"
  | Json.num n => toString n
  | Json.str s => sq ++ s ++ sq
  | Json.arr xs => "[" ++ ", ".intercalate (pyReprList xs) ++ "]"
  | Json.obj fs => "\x7b" ++ ", ".intercalate (pyReprFields fs) ++ "\x7d"
def pyReprList : List Json → List String
  | [] => []
  | x :: xs => pyRepr x :: pyReprList xs
def pyReprFields : List (String × Json) → List String
  | [] => []
  | f :: fs => (sq ++ f.1 ++ sq ++ ": " ++ pyRepr f.2) :: pyReprFields fs
end

/-- Python `str(v)`: a string is itself, anything else its repr. -/
def pyStr : Json → String
  | Json.str s => s
  | j => pyRepr j

/-- The Ticketmaster scripts' `@type` test (tm_venue_to_ics.py:73):
`any("Event" in x for x in t) if isinstance(t, list) else ("Event" in str(t))`
(a non-string list element raises in Python; modelled as no match). -/
def isEventTypeTm : Json → Bool
  | Json.arr xs =>
    xs.any (fun x =>
      match x with
      | Json.str s => strContains ("Event") s
      | _ => false)
  | j => strContains ("Event") (pyStr j)

/-- Loop body of the title scan (tm_venue_to_ics.py:77-81) for one key. -/
def titleFromKey (node : Json) (k : String) : Option String :=
  match jget node k with
  | some (Json.str v) => let t := pyStrip v; if t = "" then none else some t
  | _ => none

/-- `title` after the `("name", "headline")` loop. -/
def tmTitle (node : Json) : Option String :=
  (titleFromKey node ("name")).orElse (fun _ => titleFromKey node ("headline"))

/-- Loop body of the url scan (tm_venue_to_ics.py:84-92) for one key. -/
def urlFromKey (node : Json) (k : String) : Option String :=
  match jget node k with
  | some (Json.str v) => if startsWithHttp v then some v else none
  | some (Json.obj fs) =>
    (match jget (Json.obj fs) ("@id") with
     | some (Json.str i) => if startsWithHttp i then some i else none
     | _ => none)
  | _ => none

/-- `url` after the `("url", "mainEntityOfPage")` loop. -/
def tmUrl (node : Json) : Option String :=
  (urlFromKey node ("url")).orElse (fun _ => urlFromKey node ("mainEntityOfPage"))

/-- An output tuple of `collect_events_from_jsonld`: (title, start, url, description). -/
abbrev TmEv := String × DateTime × String × String

/-- `start_dt` of the collector loop (tm_venue_to_ics.py:82-83):
`startDate or startTime or start`, parsed only when it is a string. -/
def tmStart (node : Json) : Option DateTime :=
  match orChain [jgetD node ("startDate"), jgetD node ("startTime"), jgetD node ("start")] with
  | Json.str s => parse_iso_guess_local s
  | _ => none

/-- `desc` of the collector loop (tm_venue_to_ics.py:93): the description
when it is a string, else `""`. -/
def tmDesc (node : Json) : String :=
  match jget node ("description") with
  | some (Json.str s) => s
  | _ => ""

/-- Per-node extraction of `collect_events_from_jsonld`
(tm_venue_to_ics.py:69-95): type-tag test, title, start, url, description; a
tuple is appended only when `title and start_dt` is truthy. -/
def tmEvNode (node : Json) : Option TmEv :=
  if !truthy (jgetD node ("@type")) then none
  else if !isEventTypeTm (jgetD node ("@type")) then none
  else
    match tmTitle node, tmStart node with
    | some ti, some st => some (ti, st, (tmUrl node).getD "", tmDesc node)
    | _, _ => none

/-- The dedup key `(t, s.isoformat(), u)` (tm_venue_to_ics.py:98). -/
def tmKey (e : TmEv) : String × String × String := (e.1, e.2.1.isoformat, e.2.2.1)

/-- The `seen`-set dedup loop (tm_venue_to_ics.py:96-102). -/
def dedupGo (seen : List (String × String × String)) : List TmEv → List TmEv
  | [] => []
  | e :: es => if tmKey e ∈ seen then dedupGo seen es else e :: dedupGo (tmKey e :: seen) es

/-- `collect_events_from_jsonld` (tm_venue_to_ics.py:65-103, identical in
ticketmaster_oncenter_to_ics.py:71-100), from the parsed JSON-LD block list
(`parse_json_blocks` is the out-of-scope HTML collaborator). -/
def collect_events_from_jsonld (blocks : List Json) : List TmEv :=
  dedupGo [] (blocks.flatMap (fun b => (walk b).filterMap tmEvNode))

/-- The date an ASM JSON-LD Event node contributes
(asm_to_ics.py:140-142): `startDate or start or startTime` fed to
`parse_iso_like` (a falsy non-string yields no date; a truthy non-string
would raise in Python and is modelled as no date). -/
def asmEvDate (node : Json) : Option DateTime :=
  match orChain [jgetD node ("startDate"), jgetD node ("start"), jgetD node ("startTime")] with
  | Json.str s => parse_iso_like s
  | _ => none

/-- Title update of the ASM JSON-LD loop (asm_to_ics.py:138-139):
`if not title and isinstance(node.get("name"), str): title = node["name"]` —
a falsy title (`None` or `""`) is replaced by the node's string `name`,
unstripped. -/
def asmEvTitle (node : Json) (t0 : Option String) : Option String :=
  if t0 = none ∨ t0 = some "" then
    match jget node ("name") with
    | some (Json.str v) => some v
    | _ => t0
  else t0

/-- Loop body of the JSON-LD stage of `find_event_datetimes`
(asm_to_ics.py:134-142, identical loop in asm_venue_to_ics.py:199-208):
`"Event" in str(node.get("@type",""))` guards date and title collection
(`o.toList` is `[d]`/`[]`, i.e. `if d: dates.append(d)`). -/
def asmEvStep (acc : List DateTime × Option String) (node : Json) :
    List DateTime × Option String :=
  if strContains ("Event") (pyStr ((jget node ("@type")).getD (Json.str ""))) then
    (acc.1 ++ (asmEvDate node).toList, asmEvTitle node acc.2)
  else acc

/-- Stage 1 of both ASM extractors: the JSON-LD scan over all blocks. -/
def asmStage1 (blocks : List Json) : List DateTime × Option String :=
  (blocks.flatMap walk).foldl asmEvStep ([], none)

/-- One match of the visible-text regex `DATE_TEXT_RE`: month name, day,
optional year, 12-hour hour, optional minutes, AM/PM suffix as captured. -/
structure TextMatch where
  monName : String
  day : Nat
  year : Option Nat
  hour12 : Nat
  minOpt : Option Nat
  ampm : String
deriving DecidableEq, Repr

/-- A fetched page after the out-of-scope HTML/regex scanning: parsed JSON-LD
blocks plus the capture groups of each extraction regex, in document order
(`itemprops` entries are `m.group(1) or m.group(2)` of
`ITEMPROP_STARTDATE_RE`, `timeTags` the `datetime` attributes of
`TIME_TAG_RE`, `metas` the `event:start_time` contents of `META_START_RE`,
`generics` the values of `GENERIC_STARTDATE_RE`). -/
structure Doc where
  jsonldBlocks : List Json
  itemprops : List String
  timeTags : List String
  metas : List String
  generics : List String
  textMatches : List TextMatch

/-- `MONTH_MAP` of asm_to_ics.py:34-47. -/
def MONTH_MAP_ASM : List (String × Nat) :=
  [("January", 1), ("Jan.", 1), ("Jan", 1),
   ("February", 2), ("Feb.", 2), ("Feb", 2),
   ("March", 3), ("Mar.", 3), ("Mar", 3),
   ("April", 4), ("Apr.", 4), ("Apr", 4),
   ("May", 5),
   ("June", 6), ("Jun.", 6), ("Jun", 6),
   ("July", 7), ("Jul.", 7), ("Jul", 7),
   ("August", 8), ("Aug.", 8), ("Aug", 8),
   ("September", 9), ("Sep.", 9), ("Sept.", 9), ("Sep", 9), ("Sept", 9),
   ("October", 10), ("Oct.", 10), ("Oct", 10),
   ("November", 11), ("Nov.", 11), ("Nov", 11),
   ("December", 12), ("Dec.", 12), ("Dec", 12)]

/-- `MONTH_MAP` of asm_venue_to_ics.py:75-88 (note: no bare `"Mar"` entry). -/
def MONTH_MAP_VENUE : List (String × Nat) :=
  [("January", 1), ("Jan.", 1), ("Jan", 1),
   ("February", 2), ("Feb.", 2), ("Feb", 2),
   ("March", 3), ("Mar.", 3),
   ("April", 4), ("Apr.", 4), ("Apr", 4),
   ("May", 5),
   ("June", 6), ("Jun.", 6), ("Jun", 6),
   ("July", 7), ("Jul.", 7), ("Jul", 7),
   ("August", 8), ("Aug.", 8), ("Aug", 8),
   ("September", 9), ("Sep.", 9), ("Sept.", 9), ("Sep", 9), ("Sept", 9),
   ("October", 10), ("Oct.", 10), ("Oct", 10),
   ("November", 11), ("Nov.", 11), ("Nov", 11),
   ("December", 12), ("Dec.", 12), ("Dec", 12)]

/-- `MONTH_MAP.get(mon_name, None)`. -/
def monthLookup (mp : List (String × Nat)) (s : String) : Option Nat :=
  (mp.find? (fun p => p.1 == s)).map (fun p => p.2)

/-- The 12-hour → 24-hour conversion of the visible-text stage
(asm_to_ics.py:176-177 / asm_venue_to_ics.py:235-236):
`if ampm == "pm" and h != 12: h += 12` then `if ampm == "am" and h == 12: h = 0`. -/
def to24 (h : Nat) (ampm : String) : Nat :=
  let h1 := if ampm = "pm" ∧ h ≠ 12 then h + 12 else h
  if ampm = "am" ∧ h1 = 12 then 0 else h1

/-- The year used by a visible-text match: the captured year, else
`now_ny().year`. -/
def textYear (now : DateTime) (m : TextMatch) : Int :=
  match m.year with
  | some y => (y : Int)
  | none => now.year

/-- Turn one visible-text match into a datetime
(asm_to_ics.py:167-180 / asm_venue_to_ics.py:230-238): unknown month names
are skipped; `datetime(y, mon, day, h, mm, tzinfo=SITE_TZ)`. -/
def textDate (mp : List (String × Nat)) (now : DateTime) (m : TextMatch) : Option DateTime :=
  match monthLookup mp m.monName with
  | none => none
  | some mon =>
    some (mkDateTime (textYear now m) mon m.day (to24 m.hour12 (pyLower m.ampm))
      (m.minOpt.getD 0) 0 0 (some Tz.site))

/-- `find_event_datetimes` (asm_to_ics.py:130-181): six stages, each earlier
non-empty date list returning immediately (`if dates: return dates, title`). -/
def find_event_datetimes (now : DateTime) (doc : Doc) : List DateTime × Option String :=
  if (asmStage1 doc.jsonldBlocks).1 ≠ [] then asmStage1 doc.jsonldBlocks
  else if doc.itemprops.filterMap parse_iso_like ≠ [] then
    (doc.itemprops.filterMap parse_iso_like, (asmStage1 doc.jsonldBlocks).2)
  else if doc.timeTags.filterMap parse_iso_like ≠ [] then
    (doc.timeTags.filterMap parse_iso_like, (asmStage1 doc.jsonldBlocks).2)
  else if doc.metas.filterMap parse_iso_like ≠ [] then
    (doc.metas.filterMap parse_iso_like, (asmStage1 doc.jsonldBlocks).2)
  else if doc.generics.filterMap parse_iso_like ≠ [] then
    (doc.generics.filterMap parse_iso_like, (asmStage1 doc.jsonldBlocks).2)
  else (doc.textMatches.filterMap (textDate MONTH_MAP_ASM now), (asmStage1 doc.jsonldBlocks).2)

/-- The combined attribute/generic stage of `find_dates_and_title_from_html`
(asm_venue_to_ics.py:212-224): the four scans append into one list. -/
def venueStage2 (doc : Doc) : List DateTime :=
  doc.itemprops.filterMap parse_iso_like ++ doc.timeTags.filterMap parse_iso_like ++
    doc.metas.filterMap parse_iso_like ++ doc.generics.filterMap parse_iso_like

/-- `find_dates_and_title_from_html` (asm_venue_to_ics.py:194-240): JSON-LD,
then the combined itemprop/time/meta/generic stage, then visible text. -/
def find_dates_and_title_from_html (now : DateTime) (doc : Doc) : List DateTime × Option String :=
  if (asmStage1 doc.jsonldBlocks).1 ≠ [] then asmStage1 doc.jsonldBlocks
  else if venueStage2 doc ≠ [] then (venueStage2 doc, (asmStage1 doc.jsonldBlocks).2)
  else (doc.textMatches.filterMap (textDate MONTH_MAP_VENUE now), (asmStage1 doc.jsonldBlocks).2)

/-- The `escape_ics` replacement chain on char lists: backslash, then
semicolon, then comma, then newline (the order of the source's `.replace`
calls). -/
def escL (l : List Char) : List Char :=
  replaceChar '\n' ['\\', 'n'] (replaceChar ',' ['\\', ','] (replaceChar ';' ['\\', ';']
    (replaceChar '\\' ['\\', '\\'] l)))

/-- `escape_ics` (asm_to_ics.py:51-52, asm_venue_to_ics.py:111-118,
ticketmaster_oncenter_to_ics.py:102-103). -/
def escape_ics (s : String) : String := String.mk (escL s.toList)

/-- Per-character description of `escL` (proof device: the chain is a
character homomorphism). -/
def escChar (x : Char) : List Char :=
  if x = '\\' then ['\\', '\\']
  else if x = ';' then ['\\', ';']
  else if x = ',' then ['\\', ',']
  else if x = '\n' then ['\\', 'n']
  else [x]

/-- The standard iCalendar un-escaping (the inverse direction of the spec's
round-trip property; not present in the source): `\\`→`\`, `\;`→`;`,
`\,`→`,`, `\n`/`\N`→newline. -/
def unescape_ics_list : List Char → List Char
  | [] => []
  | c :: rest =>
    if c = '\\' then
      match rest with
      | [] => [c]
      | d :: rest2 => (if d = 'n' ∨ d = 'N' then '\n' else d) :: unescape_ics_list rest2
    else c :: unescape_ics_list rest

def unescape_ics (s : String) : String := String.mk (unescape_ics_list s.toList)

/-- The `VEVENT` lines `to_ics` of tm_venue_to_ics.py:118-135 emits for one
event (the run-dependent `uuid4` and `DTSTAMP` instant are parameters).  Note
no field goes through any escaping. -/
def tm_vevent_lines (uid dtstamp pfx : String) (e : TmEv) : List String :=
  ["BEGIN:VEVENT", "UID:" ++ uid, "DTSTAMP:" ++ dtstamp,
   "DTSTART:" ++ utcstamp e.2.1, "DTEND:" ++ utcstamp (wallAdd e.2.1 7200),
   "SUMMARY:" ++ (pfx ++ e.1)] ++
  (if e.2.2.1 ≠ "" then ["URL:" ++ e.2.2.1] else []) ++
  (if e.2.2.2 ≠ "" then ["DESCRIPTION:" ++ e.2.2.2] else []) ++
  ["END:VEVENT"]

/-- The `VEVENT` lines of ticketmaster_oncenter_to_ics.py:117-127: same
shape, but every free-text field is escaped and the title gets the
`"Oncenter: "` title prefix. -/
def oncenter_vevent_lines (uid dtstamp : String) (e : TmEv) : List String :=
  ["BEGIN:VEVENT", "UID:" ++ uid, "DTSTAMP:" ++ dtstamp,
   "DTSTART:" ++ utcstamp e.2.1, "DTEND:" ++ utcstamp (wallAdd e.2.1 7200),
   "SUMMARY:" ++ escape_ics ("Oncenter: " ++ e.1)] ++
  (if e.2.2.1 ≠ "" then ["URL:" ++ escape_ics e.2.2.1] else []) ++
  (if e.2.2.2 ≠ "" then ["DESCRIPTION:" ++ escape_ics e.2.2.2] else []) ++
  ["END:VEVENT"]

/-- `Event` of asm_to_ics.py:57-63 (`uid` is runtime randomness, left out;
`stop` models `self.end`). -/
structure Event where
  title : String
  start : DateTime
  stop : DateTime
  url : Option String
deriving DecidableEq, Repr

/-- `Event.__init__`: `(title or "ASM Syracuse Event").strip()`, default end
`start + timedelta(hours=DEFAULT_EVENT_DURATION_HOURS)` (2 hours). -/
def mkEvent (title : Option String) (start : DateTime) (stop : Option DateTime)
    (url : Option String) : Event :=
  { title := pyStrip (match title with
      | some t => if t = "" then "ASM Syracuse Event" else t
      | none => "ASM Syracuse Event")
    start := start
    stop := stop.getD (wallAdd start 7200)
    url := url }

/-- `Event.to_ics` (asm_to_ics.py:64-75): SUMMARY and URL are escaped. -/
def asm_vevent_lines (uid dtstamp : String) (e : Event) : List String :=
  ["BEGIN:VEVENT", "UID:" ++ uid, "DTSTAMP:" ++ dtstamp,
   "DTSTART:" ++ utcstamp e.start, "DTEND:" ++ utcstamp e.stop,
   "SUMMARY:" ++ escape_ics e.title] ++
  (match e.url with
   | some u => if u ≠ "" then ["URL:" ++ escape_ics u] else []
   | none => []) ++
  ["END:VEVENT"]

/-- Recency filter of `build` (tm_venue_to_ics.py:142-143, same in
ticketmaster_oncenter_to_ics.py:134-135): keep `s >= now - timedelta(days=1)`. -/
def recentFilter (now : DateTime) (items : List TmEv) : List TmEv :=
  items.filter (fun e => pyLe (wallAdd now (-86400)) e.2.1)

/-- The per-page recency filter of the ASM orchestrators
(asm_to_ics.py:232-234, asm_venue_to_ics.py:324-326 and 338-340). -/
def asm_recent_dates (now : DateTime) (ds : List DateTime) : List DateTime :=
  ds.filter (fun d => pyLe (wallAdd now (-86400)) d)

/-- The filter + placeholder step of `build` (tm_venue_to_ics.py:141-146):
when nothing survives the cutoff, a single placeholder item dated
`now + timedelta(days=1, hours=9)` is emitted. -/
def tm_build_items (now : DateTime) (url : String) (items : List TmEv) : List TmEv :=
  let kept := recentFilter now items
  if kept.isEmpty then
    [("Feed Connected — awaiting events", wallAdd now 118800, url, "No upcoming events yet.")]
  else kept

/-- The empty-result fallback of `main` (asm_to_ics.py:236-239): placeholder
start `now + timedelta(days=1, hours=9)`, explicit end one hour later. -/
def asm_fallback_events (now : DateTime) (events : List Event) : List Event :=
  if events.isEmpty then
    [mkEvent (some "ASM Feed Connected — awaiting events") (wallAdd now 118800)
      (some (wallAdd (wallAdd now 118800) 3600)) (some "https://www.asmsyracuse.com/events")]
  else events

/-! Concrete instances used by witnesses and counterexamples. -/

/-- A sample "current time": 2025-06-10 12:00 site local. -/
def now0 : DateTime := mkDateTime 2025 6 10 12 0 0 0 (some Tz.site)

/-- A sample explicitly-offset event start (2025-11-20 19:30 -05:00). -/
def sampleStart : DateTime := mkDateTime 2025 11 20 19 30 0 0 (some (Tz.off (-18000)))

/-- A JSON-LD block holding two Event nodes identical in title, start and url
and differing only in `description`. -/
def dupBlock : Json :=
  Json.arr
    [Json.obj [("@type", Json.str "Event"), ("name", Json.str "Sample Show"),
       ("startDate", Json.str "2025-11-20T19:30:00-05:00"),
       ("url", Json.str "https://example.com/show"), ("description", Json.str "first")],
     Json.obj [("@type", Json.str "Event"), ("name", Json.str "Sample Show"),
       ("startDate", Json.str "2025-11-20T19:30:00-05:00"),
       ("url", Json.str "https://example.com/show"), ("description", Json.str "second")]]

/-- A JSON-LD block whose Event nodes all miss something: no name/headline;
a non-string start; an unparseable start string. -/
def c10BadBlock : Json :=
  Json.arr
    [Json.obj [("@type", Json.str "Event"), ("startDate", Json.str "2025-11-20T19:30:00-05:00")],
     Json.obj [("@type", Json.str "Event"), ("name", Json.str "X"), ("startDate", Json.num 5)],
     Json.obj [("@type", Json.str "Event"), ("name", Json.str "Y"), ("startDate", Json.str "next friday")]]

/-- A document carrying both a structured-data event and a visible-text date
pattern. -/
def docBoth : Doc :=
  { jsonldBlocks := [Json.obj [("@type", Json.str "Event"), ("name", Json.str "S"),
      ("startDate", Json.str "2025-11-20T19:30:00-05:00")]]
    itemprops := []
    timeTags := []
    metas := []
    generics := []
    textMatches := [⟨"October", 25, some 2025, 7, some 30, "PM"⟩] }

/-- A document with only a visible-text date pattern. -/
def docTextOnly : Doc :=
  { jsonldBlocks := []
    itemprops := []
    timeTags := []
    metas := []
    generics := []
    textMatches := [⟨"October", 25, some 2025, 7, some 30, "PM"⟩] }

/-- A document with no structured data but both an itemprop date and a
generic `"startDate"` scan hit. -/
def docMix : Doc :=
  { jsonldBlocks := []
    itemprops := ["2025-10-05T10:00:00"]
    timeTags := []
    metas := []
    generics := ["2025-12-01T20:00:00"]
    textMatches := [] }

/-- A document whose only content is the duplicate-node block `dupBlock`. -/
def dupDoc : Doc :=
  { jsonldBlocks := [dupBlock]
    itemprops := []
    timeTags := []
    metas := []
    generics := []
    textMatches := [] }

/-! Helper lemmas. -/

theorem naiveSec_fromNaiveSec (x : Int) (mc : Nat) (tz : Option Tz) :
    naiveSec (fromNaiveSec x mc tz) = x := by
  show 86400 * (x / 86400) + ((x % 86400).toNat : Int) = x
  omega

theorem wallAdd_tz (dt : DateTime) (d : Int) : (wallAdd dt d).tz = dt.tz := rfl

theorem naiveUsec_wallAdd (dt : DateTime) (d : Int) :
    naiveUsec (wallAdd dt d) = naiveUsec dt + 1000000 * d := by
  show 1000000 * naiveSec (fromNaiveSec (naiveSec dt + d) dt.micro dt.tz) + (dt.micro : Int) = _
  rw [naiveSec_fromNaiveSec]
  unfold naiveUsec
  ring

/-- Comparing two wall-shifts of the same datetime compares the shifts. -/
theorem pyLe_wallAdd_pair (now : DateTime) (a b : Int) :
    pyLe (wallAdd now a) (wallAdd now b) = decide (a ≤ b) := by
  have h : pyLe (wallAdd now a) (wallAdd now b)
      = decide (naiveUsec (wallAdd now a) ≤ naiveUsec (wallAdd now b)) := by
    simp [pyLe, wallAdd_tz]
  rw [h, decide_eq_decide, naiveUsec_wallAdd, naiveUsec_wallAdd]
  omega

/-- Claim C7: the recency filter retains an event iff its start is not more
than 24 hours before the current time (`start >= now - timedelta(days=1)`,
with 24 wall-clock hours formalising "24 hours before now"); an event
36 hours in the past is dropped and one 12 hours in the past is kept, in both
the Ticketmaster `build` filter and the ASM per-page filter. -/
theorem C7_recency_filter :
    (∀ (now : DateTime) (items : List TmEv) (e : TmEv),
      e ∈ recentFilter now items ↔ e ∈ items ∧ pyLe (wallAdd now (-86400)) e.2.1 = true) ∧
    (∀ (now : DateTime) (t u dsc : String),
      recentFilter now [(t, wallAdd now (-129600), u, dsc)] = []) ∧
    (∀ (now : DateTime) (t u dsc : String),
      recentFilter now [(t, wallAdd now (-43200), u, dsc)] = [(t, wallAdd now (-43200), u, dsc)]) ∧
    (∀ (now : DateTime) (ds : List DateTime) (d : DateTime),
      d ∈ asm_recent_dates now ds ↔ d ∈ ds ∧ pyLe (wallAdd now (-86400)) d = true) ∧
    (∀ now : DateTime, asm_recent_dates now [wallAdd now (-129600)] = []) ∧
    (∀ now : DateTime, asm_recent_dates now [wallAdd now (-43200)] = [wallAdd now (-43200)]) := by
  refine ⟨?_, ?_, ?_, ?_, ?_, ?_⟩
  · intro now items e
    simp [recentFilter, List.mem_filter]
  · intro now t u dsc
    simp [recentFilter, pyLe_wallAdd_pair]
  · intro now t u dsc
    simp [recentFilter, pyLe_wallAdd_pair]
  · intro now ds d
    simp [asm_recent_dates, List.mem_filter]
  · intro now
    simp [asm_recent_dates, pyLe_wallAdd_pair]
  · intro now
    simp [asm_recent_dates, pyLe_wallAdd_pair]

/-- Claim C8: the visible-text 12-hour conversion maps 12 AM to hour 0,
12 PM to hour 12, leaves other AM hours unchanged and adds 12 to other PM
hours; `textDate` builds the datetime with exactly this converted hour. -/
theorem C8_ampm_conversion :
    to24 12 "am" = 0 ∧ to24 12 "pm" = 12 ∧
    (∀ h : Nat, h ≠ 12 → to24 h "am" = h ∧ to24 h "pm" = h + 12) ∧
    (∀ (mp : List (String × Nat)) (now : DateTime) (m : TextMatch) (mon : Nat),
      monthLookup mp m.monName = some mon →
      textDate mp now m = some (mkDateTime (textYear now m) mon m.day
        (to24 m.hour12 (pyLower m.ampm)) (m.minOpt.getD 0) 0 0 (some Tz.site))) := by
  refine ⟨by decide, by decide, ?_, ?_⟩
  · intro h hh
    constructor
    · simp [to24, hh]
    · simp [to24, hh]
  · intro mp now m mon hm
    simp [textDate, hm]

theorem C8_ampm_conversion_witness :
    (7 : Nat) ≠ 12 ∧ to24 7 "am" = 7 ∧ to24 7 "pm" = 7 + 12 ∧
    monthLookup MONTH_MAP_ASM ("October") = some 10 ∧
    textDate MONTH_MAP_ASM now0 ⟨"October", 25, some 2025, 7, some 30, "PM"⟩ =
      some (mkDateTime (textYear now0 ⟨"October", 25, some 2025, 7, some 30, "PM"⟩) 10 25
        (to24 7 (pyLower ("PM"))) 30 0 0 (some Tz.site)) :=
  ⟨by decide, (C8_ampm_conversion.2.2.1 7 (by decide)).1, (C8_ampm_conversion.2.2.1 7 (by decide)).2,
    by decide,
    C8_ampm_conversion.2.2.2 MONTH_MAP_ASM now0 ⟨"October", 25, some 2025, 7, some 30, "PM"⟩ 10
      (by decide)⟩

/-- Claim C2 (code evaluation): on the bare calendar date "2025-10-05" the
Ticketmaster Normalizer `parse_iso_guess_local` returns local midnight — not
19:00 — because `datetime.fromisoformat` already parses a bare date (to
00:00), so the 19:00 fallback branch is unreachable; the ASM Normalizer
`parse_iso_like`, which checks for a bare date before parsing, returns 19:00
as the spec demands. -/
theorem C2_bare_date_evaluation :
    parse_iso_guess_local ("2025-10-05") = some (mkDateTime 2025 10 5 0 0 0 0 (some Tz.site)) ∧
    parse_iso_like ("2025-10-05") = some (mkDateTime 2025 10 5 19 0 0 0 (some Tz.site)) := by
  exact ⟨by decide, by decide⟩

/-- Claim C1 (counterexample): with the current time 2025-06-10 12:00 local,
an empty filtered set makes `build` emit one placeholder whose start is
2025-06-11 at 21:00 local — tomorrow, but not at 09:00 (the code adds
`timedelta(days=1, hours=9)`, i.e. 33 hours, to `now`). -/
theorem C1_counterexample :
    (tm_build_items now0 ("https://example.com") []).map
        (fun e => (e.2.1.date, e.2.1.hour, e.2.1.minute)) =
      [(daysFromCivil 2025 6 11, 21, 0)] ∧ (21 : Nat) ≠ 9 := by
  exact ⟨by decide, by decide⟩

/-- Claim C1 (amended): when the recency-filtered set is empty, each
orchestrator emits exactly one placeholder event whose start is
`now + timedelta(days=1, hours=9)` — 33 hours after the current time, not
"tomorrow at 09:00"; in the ASM scripts it lasts one hour, while the
Ticketmaster serializers give every event, the placeholder included, a
two-hour `DTEND`.  The output set is never empty. -/
theorem C1_placeholder_amended :
    (∀ (now : DateTime) (url : String) (items : List TmEv),
      recentFilter now items = [] →
      tm_build_items now url items =
        [("Feed Connected — awaiting events", wallAdd now 118800, url, "No upcoming events yet.")]) ∧
    (∀ (now : DateTime) (url : String) (items : List TmEv), tm_build_items now url items ≠ []) ∧
    (∀ now : DateTime, ∃ e : Event, asm_fallback_events now [] = [e] ∧
      e.start = wallAdd now 118800 ∧ e.stop = wallAdd e.start 3600) ∧
    (∀ (uid dtstamp pfx : String) (e : TmEv),
      ("DTEND:" ++ utcstamp (wallAdd e.2.1 7200)) ∈ tm_vevent_lines uid dtstamp pfx e) := by
  refine ⟨?_, ?_, ?_, ?_⟩
  · intro now url items h
    simp [tm_build_items, h]
  · intro now url items
    unfold tm_build_items
    by_cases h : (recentFilter now items).isEmpty
    · simp [h]
    · simp only [h, if_false, Bool.false_eq_true]
      simpa [List.isEmpty_iff] using h
  · intro now
    refine ⟨mkEvent (some "ASM Feed Connected — awaiting events") (wallAdd now 118800)
      (some (wallAdd (wallAdd now 118800) 3600)) (some "https://www.asmsyracuse.com/events"),
      rfl, rfl, rfl⟩
  · intro uid dtstamp pfx e
    simp [tm_vevent_lines]

theorem C1_placeholder_amended_witness :
    recentFilter now0 [] = [] ∧
    tm_build_items now0 ("https://example.com") [] =
      [("Feed Connected — awaiting events", wallAdd now0 118800, "https://example.com",
        "No upcoming events yet.")] :=
  ⟨rfl, C1_placeholder_amended.1 now0 ("https://example.com") [] rfl⟩

/-- The `seen`-set loop keeps pairwise-distinct keys, none of them in `seen`. -/
theorem dedupGo_pairwise_aux :
    ∀ (l : List TmEv) (seen : List (String × String × String)),
      (dedupGo seen l).Pairwise (fun a b => tmKey a ≠ tmKey b) ∧
      ∀ e ∈ dedupGo seen l, tmKey e ∉ seen := by
  intro l
  induction l with
  | nil => intro seen; simp [dedupGo]
  | cons e es ih =>
    intro seen
    by_cases hk : tmKey e ∈ seen
    · simpa [dedupGo, hk] using ih seen
    · have h2 := ih (tmKey e :: seen)
      rw [dedupGo, if_neg hk]
      constructor
      · refine List.Pairwise.cons ?_ h2.1
        intro b hb
        have hnb := h2.2 b hb
        intro hEq
        exact hnb (by simp [← hEq])
      · intro x hx
        rcases List.mem_cons.mp hx with rfl | hx
        · exact hk
        · have := h2.2 x hx
          intro hc
          exact this (List.mem_cons_of_mem _ hc)

/-- Everything the dedup loop returns came from its input. -/
theorem dedupGo_subset :
    ∀ (l : List TmEv) (seen : List (String × String × String)) (e : TmEv),
      e ∈ dedupGo seen l → e ∈ l := by
  intro l
  induction l with
  | nil => intro seen e h; simp [dedupGo] at h
  | cons x xs ih =>
    intro seen e h
    by_cases hk : tmKey x ∈ seen
    · rw [dedupGo, if_pos hk] at h
      exact List.mem_cons_of_mem _ (ih _ _ h)
    · rw [dedupGo, if_neg hk] at h
      rcases List.mem_cons.mp h with rfl | h
      · exact List.mem_cons_self _ _
      · exact List.mem_cons_of_mem _ (ih _ _ h)

/-- Claim C3 (code evaluation): the dedup holds only in the Ticketmaster
collector — its output is always pairwise distinct on (title, start, url)
(the dedup key is `(t, s.isoformat(), u)`), and the two-identical-nodes
document yields exactly one tuple there — but the ASM JSON-LD stage
(asm_to_ics.py:134-143, also a cited source of the claim) has no seen-set:
on the very same document `find_event_datetimes` returns the same resolved
start twice under the same title, so the claim's "exactly one output tuple"
fails for the ASM Structured-Data Extractor. -/
theorem C3_dedup_by_title_start_url :
    (∀ blocks : List Json, (collect_events_from_jsonld blocks).Pairwise
      (fun a b => ¬(a.1 = b.1 ∧ a.2.1 = b.2.1 ∧ a.2.2.1 = b.2.2.1))) ∧
    collect_events_from_jsonld [dupBlock] =
      [("Sample Show", mkDateTime 2025 11 20 19 30 0 0 (some (Tz.off (-18000))),
        "https://example.com/show", "first")] ∧
    find_event_datetimes now0 dupDoc =
      ([mkDateTime 2025 11 20 19 30 0 0 (some (Tz.off (-18000))),
        mkDateTime 2025 11 20 19 30 0 0 (some (Tz.off (-18000)))], some "Sample Show") := by
  refine ⟨?_, by decide, by decide⟩
  intro blocks
  have h := (dedupGo_pairwise_aux (blocks.flatMap (fun b => (walk b).filterMap tmEvNode)) []).1
  refine h.imp ?_
  intro a b hk hc
  exact hk (by simp [tmKey, hc.1, hc.2.1, hc.2.2])

/-- `titleFromKey` only returns non-empty stripped strings. -/
theorem titleFromKey_ne_empty (node : Json) (k t : String)
    (h : titleFromKey node k = some t) : t ≠ "" := by
  unfold titleFromKey at h
  split at h
  · next v =>
    dsimp only at h
    split at h
    · cases h
    · next hne => cases h; exact hne
  · cases h

/-- `tmTitle` only returns non-empty strings. -/
theorem tmTitle_ne_empty (node : Json) (t : String) (h : tmTitle node = some t) : t ≠ "" := by
  unfold tmTitle at h
  cases ho : titleFromKey node ("name") with
  | some v =>
    rw [ho] at h
    simp only [Option.orElse] at h
    cases h
    exact titleFromKey_ne_empty node ("name") t ho
  | none =>
    rw [ho] at h
    simp only [Option.orElse] at h
    exact titleFromKey_ne_empty node ("headline") t h

/-- `parse_iso_like` never returns a naive datetime. -/
theorem parse_iso_like_aware (s : String) (dt : DateTime)
    (h : parse_iso_like s = some dt) : dt.tz ≠ none := by
  unfold parse_iso_like at h
  split at h
  · cases h
  · split at h
    · cases h
    · next d hd =>
      cases h
      by_cases hn : d.tz = none
      · simp [hn]
      · simp [hn]

/-- `parse_iso_guess_local` never returns a naive datetime. -/
theorem parse_iso_guess_local_aware (s : String) (dt : DateTime)
    (h : parse_iso_guess_local s = some dt) : dt.tz ≠ none := by
  unfold parse_iso_guess_local at h
  split at h
  · cases h
  · split at h
    · rcases Option.map_eq_some'.mp h with ⟨d0, _, rfl⟩
      simp [astimezoneSite, fromNaiveSec]
    · split at h
      · next d hd =>
        cases h
        by_cases hn : d.tz = none
        · simp [hn]
        · simp [hn]
      · split at h
        · cases h
          simp [mkDateTime]
        · cases h

/-- The parsed start of an Event node is always aware. -/
theorem tmStart_aware (node : Json) (st : DateTime) (h : tmStart node = some st) :
    st.tz ≠ none := by
  unfold tmStart at h
  split at h
  · exact parse_iso_guess_local_aware _ st h
  · cases h

/-- A tuple produced by the per-node extraction has a non-empty title and an
aware start. -/
theorem tmEvNode_inv (node : Json) (e : TmEv) (h : tmEvNode node = some e) :
    e.1 ≠ "" ∧ e.2.1.tz ≠ none := by
  unfold tmEvNode at h
  split at h
  · cases h
  · split at h
    · cases h
    · split at h
      · next ti st hti hst =>
        cases h
        exact ⟨tmTitle_ne_empty node ti hti, tmStart_aware node st hst⟩
      · cases h

/-- Claim C10: every tuple the Ticketmaster JSON-LD collector returns has a
non-empty title and a timezone-aware start; Event nodes lacking a usable
name/headline, or whose start value is absent, non-string, or unparseable,
contribute nothing. -/
theorem C10_collector_tuple_invariant :
    (∀ (blocks : List Json) (e : TmEv), e ∈ collect_events_from_jsonld blocks →
      e.1 ≠ "" ∧ e.2.1.tz ≠ none) ∧
    collect_events_from_jsonld [c10BadBlock] = [] := by
  constructor
  · intro blocks e he
    have h1 : e ∈ blocks.flatMap (fun b => (walk b).filterMap tmEvNode) :=
      dedupGo_subset _ [] e he
    rcases List.mem_flatMap.mp h1 with ⟨b, _, hb⟩
    rcases List.mem_filterMap.mp hb with ⟨node, _, hn⟩
    exact tmEvNode_inv node e hn
  · decide

theorem C10_collector_tuple_invariant_witness :
    (("Sample Show", mkDateTime 2025 11 20 19 30 0 0 (some (Tz.off (-18000))),
        "https://example.com/show", "first") ∈ collect_events_from_jsonld [dupBlock]) ∧
    (("Sample Show" : String) ≠ "" ∧
      (mkDateTime 2025 11 20 19 30 0 0 (some (Tz.off (-18000)))).tz ≠ none) :=
  ⟨by decide, C10_collector_tuple_invariant.1 [dupBlock]
    ("Sample Show", mkDateTime 2025 11 20 19 30 0 0 (some (Tz.off (-18000))),
      "https://example.com/show", "first") (by decide)⟩

/-- Claim C5: when the JSON-LD stage yields at least one date, both
extractors return exactly that stage's result — attribute- and text-derived
dates are never merged in; a document with both a structured-data event and a
visible-text pattern yields only the structured result, and one with only a
text pattern yields the text-derived result. -/
theorem C5_structured_data_wins :
    (∀ (now : DateTime) (doc : Doc), (asmStage1 doc.jsonldBlocks).1 ≠ [] →
      find_event_datetimes now doc = asmStage1 doc.jsonldBlocks) ∧
    (∀ (now : DateTime) (doc : Doc), (asmStage1 doc.jsonldBlocks).1 ≠ [] →
      find_dates_and_title_from_html now doc = asmStage1 doc.jsonldBlocks) ∧
    (find_event_datetimes now0 docBoth).1 =
      [mkDateTime 2025 11 20 19 30 0 0 (some (Tz.off (-18000)))] ∧
    docBoth.textMatches ≠ [] ∧
    (find_event_datetimes now0 docTextOnly).1 =
      [mkDateTime 2025 10 25 19 30 0 0 (some Tz.site)] := by
  refine ⟨?_, ?_, by decide, by decide, by decide⟩
  · intro now doc h
    simp [find_event_datetimes, h]
  · intro now doc h
    simp [find_dates_and_title_from_html, h]

theorem C5_structured_data_wins_witness :
    (asmStage1 docBoth.jsonldBlocks).1 ≠ [] ∧
    find_event_datetimes now0 docBoth = asmStage1 docBoth.jsonldBlocks :=
  ⟨by decide, C5_structured_data_wins.1 now0 docBoth (by decide)⟩

/-- Claim C6 (counterexample): in asm_venue_to_ics.py the generic quoted
"startDate" scan is not a separate later stage.  On a document whose
attribute stage yields a date (the itemprop value parses), the generic-scan
date nevertheless appears in the extractor's output, contradicting the
claimed strict short-circuit order. -/
theorem C6_counterexample :
    docMix.itemprops.filterMap parse_iso_like ≠ [] ∧
    mkDateTime 2025 12 1 20 0 0 0 (some Tz.site) ∈ docMix.generics.filterMap parse_iso_like ∧
    mkDateTime 2025 12 1 20 0 0 0 (some Tz.site) ∈
      (find_dates_and_title_from_html now0 docMix).1 := by
  exact ⟨by decide, by decide, by decide⟩

/-- Claim C6 (amended): in asm_to_ics.py the fallback runs as five separate
short-circuiting stages (itemprop, time tag, meta, generic "startDate" scan,
visible text); in asm_venue_to_ics.py the four attribute/generic scans form
one combined stage whose results are merged, followed by the visible-text
stage. -/
theorem C6_amended_cascade :
    (∀ (now : DateTime) (doc : Doc),
      (asmStage1 doc.jsonldBlocks).1 = [] → doc.itemprops.filterMap parse_iso_like ≠ [] →
      find_event_datetimes now doc =
        (doc.itemprops.filterMap parse_iso_like, (asmStage1 doc.jsonldBlocks).2)) ∧
    (∀ (now : DateTime) (doc : Doc),
      (asmStage1 doc.jsonldBlocks).1 = [] → doc.itemprops.filterMap parse_iso_like = [] →
      doc.timeTags.filterMap parse_iso_like ≠ [] →
      find_event_datetimes now doc =
        (doc.timeTags.filterMap parse_iso_like, (asmStage1 doc.jsonldBlocks).2)) ∧
    (∀ (now : DateTime) (doc : Doc),
      (asmStage1 doc.jsonldBlocks).1 = [] → doc.itemprops.filterMap parse_iso_like = [] →
      doc.timeTags.filterMap parse_iso_like = [] → doc.metas.filterMap parse_iso_like ≠ [] →
      find_event_datetimes now doc =
        (doc.metas.filterMap parse_iso_like, (asmStage1 doc.jsonldBlocks).2)) ∧
    (∀ (now : DateTime) (doc : Doc),
      (asmStage1 doc.jsonldBlocks).1 = [] → doc.itemprops.filterMap parse_iso_like = [] →
      doc.timeTags.filterMap parse_iso_like = [] → doc.metas.filterMap parse_iso_like = [] →
      doc.generics.filterMap parse_iso_like ≠ [] →
      find_event_datetimes now doc =
        (doc.generics.filterMap parse_iso_like, (asmStage1 doc.jsonldBlocks).2)) ∧
    (∀ (now : DateTime) (doc : Doc),
      (asmStage1 doc.jsonldBlocks).1 = [] → doc.itemprops.filterMap parse_iso_like = [] →
      doc.timeTags.filterMap parse_iso_like = [] → doc.metas.filterMap parse_iso_like = [] →
      doc.generics.filterMap parse_iso_like = [] →
      find_event_datetimes now doc =
        (doc.textMatches.filterMap (textDate MONTH_MAP_ASM now), (asmStage1 doc.jsonldBlocks).2)) ∧
    (∀ (now : DateTime) (doc : Doc),
      (asmStage1 doc.jsonldBlocks).1 = [] → venueStage2 doc ≠ [] →
      find_dates_and_title_from_html now doc =
        (venueStage2 doc, (asmStage1 doc.jsonldBlocks).2)) ∧
    (∀ (now : DateTime) (doc : Doc),
      (asmStage1 doc.jsonldBlocks).1 = [] → venueStage2 doc = [] →
      find_dates_and_title_from_html now doc =
        (doc.textMatches.filterMap (textDate MONTH_MAP_VENUE now),
          (asmStage1 doc.jsonldBlocks).2)) := by
  refine ⟨?_, ?_, ?_, ?_, ?_, ?_, ?_⟩
  · intro now doc h1 h2
    simp [find_event_datetimes, h1, h2]
  · intro now doc h1 h2 h3
    simp [find_event_datetimes, h1, h2, h3]
  · intro now doc h1 h2 h3 h4
    simp [find_event_datetimes, h1, h2, h3, h4]
  · intro now doc h1 h2 h3 h4 h5
    simp [find_event_datetimes, h1, h2, h3, h4, h5]
  · intro now doc h1 h2 h3 h4 h5
    simp [find_event_datetimes, h1, h2, h3, h4, h5]
  · intro now doc h1 h2
    simp [find_dates_and_title_from_html, h1, h2]
  · intro now doc h1 h2
    simp [find_dates_and_title_from_html, h1, h2]

theorem C6_amended_cascade_witness :
    (asmStage1 docMix.jsonldBlocks).1 = [] ∧ venueStage2 docMix ≠ [] ∧
    find_dates_and_title_from_html now0 docMix =
      (venueStage2 docMix, (asmStage1 docMix.jsonldBlocks).2) :=
  ⟨by decide, by decide, C6_amended_cascade.2.2.2.2.2.1 now0 docMix (by decide) (by decide)⟩

/-- Dates contributed by a single JSON-LD node are aware. -/
theorem asmEvDate_aware (node : Json) (d : DateTime) (h : asmEvDate node = some d) :
    d.tz ≠ none := by
  unfold asmEvDate at h
  split at h
  · exact parse_iso_like_aware _ d h
  · cases h

/-- One step of the JSON-LD fold preserves awareness of collected dates. -/
theorem asmEvStep_aware (acc : List DateTime × Option String) (node : Json)
    (hacc : ∀ d ∈ acc.1, d.tz ≠ none) :
    ∀ d ∈ (asmEvStep acc node).1, d.tz ≠ none := by
  intro d hd
  unfold asmEvStep at hd
  split at hd
  · rcases List.mem_append.mp hd with hm | hm
    · exact hacc d hm
    · exact asmEvDate_aware node d (Option.mem_toList.mp hm)
  · exact hacc d hd

theorem foldl_asmEvStep_aware :
    ∀ (nodes : List Json) (acc : List DateTime × Option String),
      (∀ d ∈ acc.1, d.tz ≠ none) → ∀ d ∈ (nodes.foldl asmEvStep acc).1, d.tz ≠ none := by
  intro nodes
  induction nodes with
  | nil => intro acc hacc; exact hacc
  | cons n ns ih => intro acc hacc; exact ih _ (asmEvStep_aware acc n hacc)

/-- Every date the JSON-LD stage collects is aware. -/
theorem asmStage1_aware (blocks : List Json) :
    ∀ d ∈ (asmStage1 blocks).1, d.tz ≠ none :=
  foldl_asmEvStep_aware _ ([], none) (by simp)

/-- Visible-text dates are stamped with the site timezone. -/
theorem textDate_aware (mp : List (String × Nat)) (now : DateTime) (m : TextMatch)
    (d : DateTime) (h : textDate mp now m = some d) : d.tz ≠ none := by
  unfold textDate at h
  split at h
  · cases h
  · cases h
    simp [mkDateTime]

/-- Claim C9: every timestamp either Normalizer returns is timezone-aware; a
parse result carrying no timezone information is stamped with the fixed site
timezone (never UTC); and every date the ASM extractor returns — hence every
start compared against the recency cutoff or serialized — is aware. -/
theorem C9_always_timezone_aware :
    (∀ (s : String) (dt : DateTime), parse_iso_like s = some dt → dt.tz ≠ none) ∧
    (∀ (s : String) (dt : DateTime), parse_iso_guess_local s = some dt → dt.tz ≠ none) ∧
    (∀ (s : String) (dt : DateTime), pyFromIsoList (asmPre s) = some dt → dt.tz = none →
      parse_iso_like s = some { dt with tz := some Tz.site }) ∧
    (∀ (now : DateTime) (doc : Doc) (d : DateTime),
      d ∈ (find_event_datetimes now doc).1 → d.tz ≠ none) := by
  refine ⟨parse_iso_like_aware, parse_iso_guess_local_aware, ?_, ?_⟩
  · intro s dt h hn
    by_cases hs : s = ""
    · subst hs
      have : pyFromIsoList (asmPre ("")) = none := rfl
      rw [this] at h
      cases h
    · simp [parse_iso_like, hs, h, hn]
  · intro now doc d hd
    unfold find_event_datetimes at hd
    split at hd
    · exact asmStage1_aware _ d hd
    · split at hd
      · rcases List.mem_filterMap.mp hd with ⟨s, _, hs⟩
        exact parse_iso_like_aware s d hs
      · split at hd
        · rcases List.mem_filterMap.mp hd with ⟨s, _, hs⟩
          exact parse_iso_like_aware s d hs
        · split at hd
          · rcases List.mem_filterMap.mp hd with ⟨s, _, hs⟩
            exact parse_iso_like_aware s d hs
          · split at hd
            · rcases List.mem_filterMap.mp hd with ⟨s, _, hs⟩
              exact parse_iso_like_aware s d hs
            · rcases List.mem_filterMap.mp hd with ⟨m, _, hm⟩
              exact textDate_aware MONTH_MAP_ASM now m d hm

theorem C9_always_timezone_aware_witness :
    parse_iso_like ("2025-01-02T03:04:05") = some (mkDateTime 2025 1 2 3 4 5 0 (some Tz.site)) ∧
    (mkDateTime 2025 1 2 3 4 5 0 (some Tz.site)).tz ≠ none :=
  ⟨by decide, C9_always_timezone_aware.1 ("2025-01-02T03:04:05")
    (mkDateTime 2025 1 2 3 4 5 0 (some Tz.site)) (by decide)⟩

theorem replaceChar_append (c : Char) (r : List Char) (a b : List Char) :
    replaceChar c r (a ++ b) = replaceChar c r a ++ replaceChar c r b := by
  induction a with
  | nil => simp [replaceChar]
  | cons x xs ih =>
    by_cases hx : x = c
    · simp [replaceChar, hx, ih]
    · simp [replaceChar, hx, ih]

/-- The escaping chain is an append homomorphism. -/
theorem escL_append (a b : List Char) : escL (a ++ b) = escL a ++ escL b := by
  simp [escL, replaceChar_append]

/-- The escaping chain acts per character as `escChar`. -/
theorem escL_single (x : Char) : escL [x] = escChar x := by
  by_cases h1 : x = '\\'
  · subst h1; rfl
  · by_cases h2 : x = ';'
    · subst h2; rfl
    · by_cases h3 : x = ','
      · subst h3; rfl
      · by_cases h4 : x = '\n'
        · subst h4; rfl
        · simp [escL, escChar, replaceChar, h1, h2, h3, h4]

theorem escL_flatMap (l : List Char) : escL l = l.flatMap escChar := by
  induction l with
  | nil => rfl
  | cons x xs ih =>
    have hsplit : escL (x :: xs) = escL [x] ++ escL xs := by
      simpa using escL_append [x] xs
    rw [hsplit, escL_single, ih, List.flatMap_cons]

/-- Un-escaping undoes one escaped character. -/
theorem unescape_escChar (x : Char) (rest : List Char) :
    unescape_ics_list (escChar x ++ rest) = x :: unescape_ics_list rest := by
  by_cases h1 : x = '\\'
  · subst h1; rfl
  · by_cases h2 : x = ';'
    · subst h2; rfl
    · by_cases h3 : x = ','
      · subst h3; rfl
      · by_cases h4 : x = '\n'
        · subst h4; rfl
        · have hx : escChar x = [x] := by simp [escChar, h1, h2, h3, h4]
          rw [hx]
          show unescape_ics_list (x :: rest) = x :: unescape_ics_list rest
          rw [unescape_ics_list.eq_def]
          simp [h1]

theorem unescape_flatMap (l : List Char) : unescape_ics_list (l.flatMap escChar) = l := by
  induction l with
  | nil => rfl
  | cons x xs ih => rw [List.flatMap_cons, unescape_escChar, ih]

/-- The escaping map round-trips on every string. -/
theorem unescape_escape (s : String) : unescape_ics (escape_ics s) = s := by
  show String.mk (unescape_ics_list (String.toList (String.mk (escL s.toList)))) = s
  rw [show String.toList (String.mk (escL s.toList)) = escL s.toList from rfl,
    escL_flatMap, unescape_flatMap]
  cases s
  rfl

/-- Claim C4 (evaluation + round-trip): the escaping map (`\`→`\\`, `;`→`\;`,
`,`→`\,`, newline→`\n`) round-trips on every string, and the ASM serializer
applies it to its SUMMARY field; but the serializer of tm_venue_to_ics.py
emits SUMMARY (and URL/DESCRIPTION) with no escaping at all — its own
`escape_ics` line is malformed and never called — so a title containing
`,`, `;`, `\` reaches the output raw. -/
theorem C4_escaping :
    (∀ s : String, unescape_ics (escape_ics s) = s) ∧
    escape_ics ("a,b;c\\d") = "a\\,b\\;c\\\\d" ∧
    tm_vevent_lines ("u1") ("20250101T000000Z") ("") ("a,b;c\\d", sampleStart, "", "") =
      ["BEGIN:VEVENT", "UID:u1", "DTSTAMP:20250101T000000Z",
       "DTSTART:" ++ utcstamp sampleStart, "DTEND:" ++ utcstamp (wallAdd sampleStart 7200),
       "SUMMARY:a,b;c\\d", "END:VEVENT"] ∧
    asm_vevent_lines ("u1") ("20250101T000000Z")
        (mkEvent (some "a,b;c\\d") sampleStart none none) =
      ["BEGIN:VEVENT", "UID:u1", "DTSTAMP:20250101T000000Z",
       "DTSTART:" ++ utcstamp sampleStart, "DTEND:" ++ utcstamp (wallAdd sampleStart 7200),
       "SUMMARY:a\\,b\\;c\\\\d", "END:VEVENT"] := by
  refine ⟨unescape_escape, by decide, by decide, by decide⟩

end ICS
